import Mathlib

/-!
Shallow embedding of the document persistence and multi-document state
manager of the markdown-notepad repository
(`src/components/MarkdownPreview.tsx`, hook `useDocuments`) and of the
theme preference store (`useTheme`).

Impure inputs of the JavaScript code (the ambient clock `Date.now()`, the
random id generator, the content of `localStorage`, timer outcomes) are
passed as explicit parameters, so every operation is a total function on
an explicit state.
-/

namespace MarkdownNotepad

/-- A markdown document, mirroring the `Document` interface:
`{ id: string, name: string, content: string, updatedAt: number }`. -/
structure Document where
  id : String
  name : String
  content : String
  updatedAt : Nat
deriving Repr, DecidableEq, Inhabited

/-- Save status of the store, mirroring `DocumentsStatus = 'saved' | 'saving' | 'error'`. -/
inductive DocumentsStatus
  | saved
  | saving
  | error
deriving Repr, DecidableEq

/-- `const DEFAULT_DOCUMENT_NAME = 'Untitled Document'`. -/
def DEFAULT_DOCUMENT_NAME : String := "Untitled Document"

/-- `createNewDocument(name: string = DEFAULT_DOCUMENT_NAME)`.
The generated id and `Date.now()` are passed explicitly; the optional
`name` argument is `Option String` — `none` models the JavaScript
`undefined`, which is the only case in which the default parameter fires. -/
def createNewDocument (newId : String) (now : Nat) (name : Option String) : Document :=
  { id := newId
    name := name.getD DEFAULT_DOCUMENT_NAME
    content := ""
    updatedAt := now }

/-- State of the `useDocuments` hook: the React state variables
(`documents`, `activeDocumentId`, `status`, `error`), the pending debounce
timer (`debounceTimeoutRef`, as its fire time and captured snapshot), the
log of writes performed to storage, and the configured `debounceMs`. -/
structure DocState where
  documents : List Document
  activeDocumentId : Option String
  status : DocumentsStatus
  error : Option String
  pending : Option (Nat × List Document)
  writes : List (Nat × List Document)
  debounceMs : Nat
deriving Repr, DecidableEq

/-- `saveDocuments(docs)`: sets status to `'saving'`, clears any previous
timer (the old `pending` entry is overwritten) and arms a new timer that
will fire `debounceMs` after `now`, carrying the snapshot `docs`. -/
def saveDocuments (now : Nat) (docs : List Document) (s : DocState) : DocState :=
  { s with status := .saving, pending := some (now + s.debounceMs, docs) }

/-- Outcome of a `localStorage.setItem` call inside the fired timer:
success, or a thrown error whose `name` is the given string
(`'QuotaExceededError'` for a quota failure). -/
inductive WriteOutcome
  | success
  | failure (name : String)
deriving Repr, DecidableEq

/-- The error message produced by the `catch` branch of the flush:
quota-exceeded errors get the specific storage-full message, everything
else the generic one. -/
def flushMessage (name : String) : String :=
  if name = "QuotaExceededError" then "Storage is full. Please delete some documents."
  else "Failed to save documents"

/-- Advance the clock to time `t`: if the pending debounce timer is due
(`fire time ≤ t`) it fires once, attempting the storage write with the
given outcome. On success the snapshot is written, status becomes
`'saved'` and the error is cleared; on failure the status becomes
`'error'` with the classified message and nothing is written. The
in-memory fields `documents`/`activeDocumentId` are untouched either way. -/
def advanceTo (t : Nat) (outcome : WriteOutcome) (s : DocState) : DocState :=
  match s.pending with
  | none => s
  | some (ft, snap) =>
    if ft ≤ t then
      match outcome with
      | .success =>
          { s with pending := none, writes := s.writes ++ [(ft, snap)],
                   status := .saved, error := none }
      | .failure n =>
          { s with pending := none, status := .error, error := some (flushMessage n) }
    else s

/-- `createDocument(name?)`: builds the new document, prepends it,
schedules persistence of the updated collection, makes the new document
active, and returns its id together with the new state. -/
def createDocument (newId : String) (now : Nat) (name : Option String) (s : DocState) :
    String × DocState :=
  let newDoc := createNewDocument newId now name
  let updated := newDoc :: s.documents
  (newDoc.id,
   { saveDocuments now updated s with
       documents := updated
       activeDocumentId := some newDoc.id })

/-- JavaScript `String.prototype.trim`: drops whitespace from both ends of
the string. Embedded over the character list so it evaluates by kernel
reduction. -/
def jsTrim (s : String) : String :=
  String.mk (((s.data.dropWhile Char.isWhitespace).reverse.dropWhile
    Char.isWhitespace).reverse)

/-- `renameDocument(id, newName)`: early-returns when the trimmed name is
empty; otherwise maps over the collection updating `name` and `updatedAt`
of every document whose id matches, and schedules persistence of the
mapped collection (also when nothing matched). -/
def renameDocument (id newName : String) (now : Nat) (s : DocState) : DocState :=
  if jsTrim newName = "" then s
  else
    let updated := s.documents.map fun d =>
      if d.id = id then { d with name := jsTrim newName, updatedAt := now } else d
    { saveDocuments now updated s with documents := updated }

/-- `deleteDocument(id)`: filters out the matching documents. If the
result is empty, a fresh default-named document (fresh id `newId`,
timestamp `now`) is pushed and made active; else if the deleted id was the
active one, the first element of the filtered collection becomes active.
Persistence of the resulting collection is scheduled in every case. -/
def deleteDocument (id : String) (newId : String) (now : Nat) (s : DocState) : DocState :=
  let updated := s.documents.filter (fun d => d.id != id)
  if updated.isEmpty then
    let newDoc := createNewDocument newId now none
    { saveDocuments now [newDoc] s with
        documents := [newDoc]
        activeDocumentId := some newDoc.id }
  else if s.activeDocumentId = some id then
    { saveDocuments now updated s with
        documents := updated
        activeDocumentId := some updated.headI.id }
  else
    { saveDocuments now updated s with documents := updated }

/-- What `localStorage.getItem(STORAGE_KEY)` followed by `JSON.parse`
yields during the mount effect: no stored value, a parsed document array,
or a parse exception. -/
inductive LoadResult
  | absent
  | parsed (docs : List Document)
  | corrupt
deriving Repr, DecidableEq

/-- The `reduce` of the mount effect:
`parsed.reduce((latest, doc) => doc.updatedAt > latest.updatedAt ? doc : latest)`,
with the first element as the initial accumulator. -/
def mostRecent (d : Document) (ds : List Document) : Document :=
  ds.foldl (fun latest doc => if doc.updatedAt > latest.updatedAt then doc else latest) d

/-- The initial React state before the mount effect runs. -/
def emptyState (debounceMs : Nat) : DocState :=
  { documents := []
    activeDocumentId := none
    status := .saved
    error := none
    pending := none
    writes := []
    debounceMs := debounceMs }

/-- The mount effect of `useDocuments`: a stored snapshot that parses is
installed, and the document with the maximum `updatedAt` becomes active
when the array is non-empty; an absent snapshot bootstraps one document
named `'Welcome'`; a parse failure is caught, sets the load error and
falls back to one freshly created document, also named `'Welcome'`.
`bootId`/`now` feed `createNewDocument` in the bootstrap/fallback cases. -/
def initStore (load : LoadResult) (bootId : String) (now : Nat) (debounceMs : Nat) : DocState :=
  match load with
  | .parsed docs =>
      match docs with
      | [] => { emptyState debounceMs with documents := [] }
      | d :: ds =>
          { emptyState debounceMs with
              documents := d :: ds
              activeDocumentId := some (mostRecent d ds).id }
  | .absent =>
      let initialDoc := createNewDocument bootId now (some "Welcome")
      { emptyState debounceMs with
          documents := [initialDoc]
          activeDocumentId := some initialDoc.id }
  | .corrupt =>
      let fallbackDoc := createNewDocument bootId now (some "Welcome")
      { emptyState debounceMs with
          documents := [fallbackDoc]
          activeDocumentId := some fallbackDoc.id
          error := some "Failed to load documents" }

/-- One user-level mutation of the collection, carrying the impure inputs
(fresh id, clock reading) the operation consumes. -/
inductive DocOp
  | create (newId : String) (now : Nat) (name : Option String)
  | delete (id : String) (newId : String) (now : Nat)
deriving Repr, DecidableEq

/-- Apply one mutation to the state. -/
def applyOp (op : DocOp) (s : DocState) : DocState :=
  match op with
  | .create newId now name => (createDocument newId now name s).2
  | .delete id newId now => deleteDocument id newId now s

/-- Apply a sequence of mutations in call order. -/
def runOps (ops : List DocOp) (s : DocState) : DocState :=
  ops.foldl (fun s op => applyOp op s) s

end MarkdownNotepad

namespace MarkdownNotepad

/-! ### Theme preference store (`useTheme`) -/

/-- `type Theme = 'light' | 'dark'`. -/
inductive Theme
  | light
  | dark
deriving Repr, DecidableEq

/-- Session state of the theme hook under working storage: the current
`theme` state variable, the value stored under the theme key, and a ghost
flag recording whether the user has toggled or explicitly set a theme in
this session. -/
structure ThemeState where
  theme : Theme
  stored : Option Theme
  userSet : Bool
deriving Repr, DecidableEq

/-- Mount of `useTheme` with working storage: the initializer returns the
stored value when present, else `'dark'` when the environment prefers a
dark color scheme, else the configured default; the persist effect then
runs and writes the resolved theme to storage. No user action has
happened yet. -/
def themeInit (stored0 : Option Theme) (envDark : Bool) (defaultTheme : Theme) : ThemeState :=
  let t := stored0.getD (if envDark then Theme.dark else defaultTheme)
  { theme := t, stored := some t, userSet := false }

/-- Session events after mount: the exposed `toggleTheme`, `setLightTheme`
and `setDarkTheme` callbacks, and a `change` event of the
`prefers-color-scheme` media query. -/
inductive ThemeEvent
  | toggle
  | setLight
  | setDark
  | envChange (isDark : Bool)
deriving Repr, DecidableEq

/-- One step of the session. Explicit setters change the theme and the
persist effect re-writes storage; the media-query handler reads storage
and applies the environment scheme only when nothing is stored (in which
case the persist effect stores the new theme). -/
def themeStep (e : ThemeEvent) (s : ThemeState) : ThemeState :=
  match e with
  | .toggle =>
      let t := if s.theme = Theme.light then Theme.dark else Theme.light
      { theme := t, stored := some t, userSet := true }
  | .setLight => { theme := Theme.light, stored := some Theme.light, userSet := true }
  | .setDark => { theme := Theme.dark, stored := some Theme.dark, userSet := true }
  | .envChange isDark =>
      match s.stored with
      | none =>
          let t := if isDark then Theme.dark else Theme.light
          { theme := t, stored := some t, userSet := s.userSet }
      | some _ => s

/-- Run a session: fold the events over the mount state. -/
def sessionRun (es : List ThemeEvent) (s : ThemeState) : ThemeState :=
  es.foldl (fun s e => themeStep e s) s

end MarkdownNotepad

namespace MarkdownNotepad

/-! ### Example states used by witnesses and counterexamples -/

/-- A concrete document. -/
def docA : Document := { id := "a", name := "A", content := "", updatedAt := 1000 }

/-- Another concrete document. -/
def docB : Document := { id := "b", name := "B", content := "", updatedAt := 2000 }

/-- A concrete store state with two documents, `docA` active, no pending timer. -/
def exState : DocState :=
  { documents := [docA, docB]
    activeDocumentId := some "a"
    status := .saved
    error := none
    pending := none
    writes := []
    debounceMs := 400 }

/-- `exState` with a debounced write pending, due at time 400. -/
def pendState : DocState := { exState with pending := some (400, [docA, docB]) }

/-! ### Claims -/

/-- C4 (counterexample): `createDocument` with a blank (non-omitted) name keeps
the blank name verbatim — the new document is named `"   "`, not the default
`"Untitled Document"` the claim requires for blank names (the JavaScript
default parameter fires only on `undefined`). -/
theorem createDocument_blank_name_counterexample :
    ((createDocument "id1" 5 (some "   ") (emptyState 400)).2.documents.map
        (fun d => d.name) = ["   "]) ∧
      "   " ≠ DEFAULT_DOCUMENT_NAME :=
  ⟨rfl, by decide⟩

/-- C4 (amended): `createDocument(name?)` prepends a document with the supplied
fresh id, empty content and the current timestamp, whose name is the fixed
default `"Untitled Document"` exactly when the name argument is omitted, and
the given name verbatim otherwise (a blank name is kept, not replaced by the
default); it makes the new document active, schedules persistence of the
updated collection, and returns the new document's id. -/
theorem createDocument_spec (s : DocState) (newId : String) (now : Nat)
    (name : Option String) :
    (createDocument newId now name s).1 = newId ∧
    (createDocument newId now name s).2.documents =
      { id := newId
        name := match name with | none => DEFAULT_DOCUMENT_NAME | some n => n
        content := ""
        updatedAt := now } :: s.documents ∧
    (createDocument newId now name s).2.activeDocumentId = some newId ∧
    (createDocument newId now name s).2.status = DocumentsStatus.saving ∧
    (createDocument newId now name s).2.pending =
      some (now + s.debounceMs, (createDocument newId now name s).2.documents) := by
  cases name <;> simp [createDocument, createNewDocument, saveDocuments]

/-- C5 (counterexample): after a failed parse, the fallback document is named
`"Welcome"` — the very same name the bootstrap (absent-snapshot) path uses —
not a default distinct from it as the claim states. -/
theorem corrupt_fallback_name_counterexample :
    (initStore .corrupt "b" 3 400).documents.map (fun d => d.name) = ["Welcome"] ∧
    (initStore .absent "b" 3 400).documents.map (fun d => d.name) = ["Welcome"] :=
  ⟨rfl, rfl⟩

/-- C5 (amended): initialization from an unparsable snapshot never throws (the
mount effect catches the parse exception; the embedding is a total function),
signals the load error `"Failed to load documents"`, and leaves the store with
exactly one freshly created active document — named `"Welcome"`, the same
default name the bootstrap path uses, not a distinct one. -/
theorem initStore_corrupt_spec (bootId : String) (now dms : Nat) :
    (initStore .corrupt bootId now dms).documents =
      [{ id := bootId, name := "Welcome", content := "", updatedAt := now }] ∧
    (initStore .corrupt bootId now dms).documents.length = 1 ∧
    (initStore .corrupt bootId now dms).error = some "Failed to load documents" ∧
    (initStore .corrupt bootId now dms).activeDocumentId = some bootId := by
  simp [initStore, createNewDocument, emptyState]

/-- C7: with a 400 ms debounce and mutations scheduled at t=0 (snapshot `S0`)
and t=200 (snapshot `S1`), the second schedule cancels the first pending timer;
no write is performed at any time before t=600, and at t=600 exactly one write
occurs, carrying the snapshot captured at t=200 — never the canceled `S0`
schedule — and no further write ever follows it. -/
theorem debounce_collapse (S0 S1 : List Document) (t t2 : Nat) (ht : t < 600) :
    (advanceTo t .success
        (saveDocuments 200 S1 (saveDocuments 0 S0 (emptyState 400)))).writes = [] ∧
    (advanceTo 600 .success
        (saveDocuments 200 S1 (saveDocuments 0 S0 (emptyState 400)))).writes = [(600, S1)] ∧
    (advanceTo t2 .success (advanceTo 600 .success
        (saveDocuments 200 S1 (saveDocuments 0 S0 (emptyState 400))))).writes = [(600, S1)] := by
  refine ⟨?_, ?_, ?_⟩
  · simp [advanceTo, saveDocuments, emptyState, Nat.not_le.mpr ht]
  · simp [advanceTo, saveDocuments, emptyState]
  · simp [advanceTo, saveDocuments, emptyState]

/-- C7 (witness): concrete instance at `t = 0`, snapshots `[docA]` and `[docB]`. -/
theorem debounce_collapse_witness :
    (0 : Nat) < 600 ∧
    (advanceTo 0 .success
        (saveDocuments 200 [docB] (saveDocuments 0 [docA] (emptyState 400)))).writes = [] ∧
    (advanceTo 600 .success
        (saveDocuments 200 [docB] (saveDocuments 0 [docA] (emptyState 400)))).writes
      = [(600, [docB])] :=
  ⟨by decide, (debounce_collapse [docA] [docB] 0 700 (by decide)).1,
    (debounce_collapse [docA] [docB] 0 700 (by decide)).2.1⟩

/-- C8: when the due flush fails, the save status becomes `error`, the error
message is exactly `"Storage is full. Please delete some documents."` for a
quota-exceeded error and the generic `"Failed to save documents"` for any other
error name, and the in-memory collection, active selection and write log are
unchanged — the triggering mutation is never rolled back or lost. -/
theorem flush_failure_spec (s : DocState) (ft t : Nat) (snap : List Document) (n : String)
    (hp : s.pending = some (ft, snap)) (hdue : ft ≤ t) :
    (advanceTo t (.failure n) s).status = DocumentsStatus.error ∧
    (advanceTo t (.failure n) s).error =
      some (if n = "QuotaExceededError"
        then "Storage is full. Please delete some documents."
        else "Failed to save documents") ∧
    (advanceTo t (.failure n) s).documents = s.documents ∧
    (advanceTo t (.failure n) s).activeDocumentId = s.activeDocumentId ∧
    (advanceTo t (.failure n) s).writes = s.writes := by
  simp [advanceTo, hp, hdue, flushMessage]

/-- C8 (witness): a due quota-exceeded flush on `pendState`. -/
theorem flush_failure_witness :
    pendState.pending = some (400, [docA, docB]) ∧ (400 : Nat) ≤ 400 ∧
    (advanceTo 400 (.failure "QuotaExceededError") pendState).error =
      some "Storage is full. Please delete some documents." ∧
    (advanceTo 400 (.failure "QuotaExceededError") pendState).documents =
      pendState.documents :=
  ⟨rfl, by decide,
    by simpa using
      (flush_failure_spec pendState 400 400 [docA, docB] "QuotaExceededError" rfl
        (by decide)).2.1,
    (flush_failure_spec pendState 400 400 [docA, docB] "QuotaExceededError" rfl
      (by decide)).2.2.1⟩

end MarkdownNotepad

namespace MarkdownNotepad

/-- C2: deleting the active document from a collection that also contains at
least one other document sets, in the same update, the new active id to the id
of the first element of the post-removal collection; in particular the new
active id refers to a document of the resulting collection. -/
theorem delete_active_spec (s : DocState) (aid nid : String) (now : Nat)
    (hact : s.activeDocumentId = some aid)
    (_hmem : ∃ d ∈ s.documents, d.id = aid)
    (hother : ∃ d ∈ s.documents, d.id ≠ aid) :
    ∃ d rest,
      s.documents.filter (fun x => x.id != aid) = d :: rest ∧
      (deleteDocument aid nid now s).documents = d :: rest ∧
      (deleteDocument aid nid now s).activeDocumentId = some d.id ∧
      ∃ e ∈ (deleteDocument aid nid now s).documents,
        some e.id = (deleteDocument aid nid now s).activeDocumentId := by
  obtain ⟨d', hd'mem, hd'ne⟩ := hother
  have hmemf : d' ∈ s.documents.filter (fun x => x.id != aid) :=
    List.mem_filter.mpr ⟨hd'mem, by simpa [bne_iff_ne] using hd'ne⟩
  cases hf : s.documents.filter (fun x => x.id != aid) with
  | nil => rw [hf] at hmemf; cases hmemf
  | cons d rest =>
      have hdel : deleteDocument aid nid now s =
          { saveDocuments now (d :: rest) s with
              documents := d :: rest
              activeDocumentId := some d.id } := by
        unfold deleteDocument
        rw [hf]
        simp [hact]
      refine ⟨d, rest, rfl, by simp [hdel], by simp [hdel], ?_⟩
      exact ⟨d, by simp [hdel], by simp [hdel]⟩

/-- C2 (witness): deleting active `"a"` from `exState` (which also holds `docB`). -/
theorem delete_active_witness :
    exState.activeDocumentId = some "a" ∧
    (∃ d ∈ exState.documents, d.id = "a") ∧
    (∃ d ∈ exState.documents, d.id ≠ "a") ∧
    ∃ d rest,
      exState.documents.filter (fun x => x.id != "a") = d :: rest ∧
      (deleteDocument "a" "n" 7 exState).documents = d :: rest ∧
      (deleteDocument "a" "n" 7 exState).activeDocumentId = some d.id ∧
      ∃ e ∈ (deleteDocument "a" "n" 7 exState).documents,
        some e.id = (deleteDocument "a" "n" 7 exState).activeDocumentId :=
  ⟨rfl, by decide, by decide,
    delete_active_spec exState "a" "n" 7 rfl (by decide) (by decide)⟩

/-- C10: deleting a non-active id from a collection of at least two documents
(the active one among them) leaves the active selection unchanged; the
resulting collection is exactly the original with the documents matching the
id removed, and persistence of it is scheduled. -/
theorem delete_inactive_frame (s : DocState) (id aid nid : String) (now : Nat)
    (hact : s.activeDocumentId = some aid)
    (hmem : ∃ d ∈ s.documents, d.id = aid)
    (_hlen : 2 ≤ s.documents.length)
    (hne : id ≠ aid) :
    (deleteDocument id nid now s).activeDocumentId = s.activeDocumentId ∧
    (deleteDocument id nid now s).documents = s.documents.filter (fun d => d.id != id) ∧
    (deleteDocument id nid now s).status = DocumentsStatus.saving ∧
    (deleteDocument id nid now s).pending =
      some (now + s.debounceMs, s.documents.filter (fun d => d.id != id)) := by
  obtain ⟨d', hd'mem, hd'id⟩ := hmem
  have hdne : d'.id ≠ id := by rw [hd'id]; exact fun h => hne h.symm
  have hmemf : d' ∈ s.documents.filter (fun x => x.id != id) :=
    List.mem_filter.mpr ⟨hd'mem, by simpa [bne_iff_ne] using hdne⟩
  cases hf : s.documents.filter (fun x => x.id != id) with
  | nil => rw [hf] at hmemf; cases hmemf
  | cons d rest =>
      have hdel : deleteDocument id nid now s =
          { saveDocuments now (d :: rest) s with documents := d :: rest } := by
        unfold deleteDocument
        rw [hf]
        simp [hact, Ne.symm hne]
      simp [hdel, saveDocuments, hact]

/-- C10 (witness): deleting non-active `"b"` from `exState` (active `"a"`). -/
theorem delete_inactive_witness :
    exState.activeDocumentId = some "a" ∧
    (∃ d ∈ exState.documents, d.id = "a") ∧
    2 ≤ exState.documents.length ∧
    "b" ≠ "a" ∧
    (deleteDocument "b" "n" 7 exState).activeDocumentId = exState.activeDocumentId ∧
    (deleteDocument "b" "n" 7 exState).documents =
      exState.documents.filter (fun d => d.id != "b") :=
  ⟨rfl, by decide, by decide, by decide,
    (delete_inactive_frame exState "b" "a" "n" 7 rfl (by decide) (by decide)
      (by decide)).1,
    (delete_inactive_frame exState "b" "a" "n" 7 rfl (by decide) (by decide)
      (by decide)).2.1⟩

end MarkdownNotepad

namespace MarkdownNotepad

/-- C3 (counterexample): renaming with an id no document has is not a no-op:
the collection is unchanged, but `saveDocuments` is still called, so the
status flips to `saving` and a persistence write is scheduled where none was
pending before. -/
theorem renameDocument_missing_id_counterexample :
    (∀ d ∈ exState.documents, d.id ≠ "zzz") ∧
    (renameDocument "zzz" "X" 5 exState).documents = exState.documents ∧
    exState.pending = none ∧
    (renameDocument "zzz" "X" 5 exState).pending = some (405, [docA, docB]) ∧
    (renameDocument "zzz" "X" 5 exState).status = DocumentsStatus.saving := by
  refine ⟨by decide, ?_, rfl, ?_, ?_⟩ <;> decide

/-- C3 (amended): `renameDocument(id, newName)` is a complete no-op when the
trimmed name is empty; when the trimmed name is non-empty it sets the name of
every document matching the id to the trimmed name (so surrounding whitespace
is dropped) and refreshes its `updatedAt`, leaves all other documents and the
active selection unchanged, and schedules persistence of the resulting
collection — it does so even when no document matches the id, in which case
the collection itself is unchanged but a write is still scheduled and the
status still becomes `saving`. -/
theorem renameDocument_spec (s : DocState) (id newName : String) (now : Nat) :
    (jsTrim newName = "" → renameDocument id newName now s = s) ∧
    ((∀ d ∈ s.documents, d.id ≠ id) →
      (renameDocument id newName now s).documents = s.documents) ∧
    (jsTrim newName ≠ "" →
      (renameDocument id newName now s).status = DocumentsStatus.saving ∧
      (renameDocument id newName now s).pending =
        some (now + s.debounceMs, (renameDocument id newName now s).documents) ∧
      (renameDocument id newName now s).activeDocumentId = s.activeDocumentId ∧
      (renameDocument id newName now s).error = s.error ∧
      ∀ i : Nat, (renameDocument id newName now s).documents[i]? =
        (s.documents[i]?).map (fun d =>
          if d.id = id then { d with name := jsTrim newName, updatedAt := now }
          else d)) := by
  refine ⟨fun h => by simp [renameDocument, h], fun hmiss => ?_, fun h => ?_⟩
  · by_cases htrim : jsTrim newName = ""
    · simp [renameDocument, htrim]
    · have hmap : s.documents.map (fun d =>
          if d.id = id then { d with name := jsTrim newName, updatedAt := now }
          else d) = s.documents := by
        conv_rhs => rw [← List.map_id s.documents]
        exact List.map_congr_left fun d hd => by simp [hmiss d hd]
      simp [renameDocument, htrim, saveDocuments, hmap]
  · refine ⟨?_, ?_, ?_, ?_, fun i => ?_⟩ <;>
      simp [renameDocument, if_neg h, saveDocuments, List.getElem?_map]

/-- C3 (witness): a whitespace-only rename of `"a"` in `exState` is a no-op. -/
theorem renameDocument_spec_witness :
    jsTrim "   " = "" ∧ renameDocument "a" "   " 7 exState = exState :=
  ⟨by decide, (renameDocument_spec exState "a" "   " 7).1 (by decide)⟩

end MarkdownNotepad

namespace MarkdownNotepad

/-- Every single `createDocument`/`deleteDocument` call leaves a non-empty
collection, whatever the starting state: creation prepends, and deletion
either keeps at least one survivor or pushes a fresh default document. -/
theorem applyOp_documents_ne_nil (op : DocOp) (s : DocState) :
    (applyOp op s).documents ≠ [] := by
  cases op with
  | create nid now name => simp [applyOp, createDocument]
  | delete id nid now =>
      cases hf : s.documents.filter (fun d => d.id != id) with
      | nil => simp [applyOp, deleteDocument, hf]
      | cons d rest =>
          simp only [applyOp, deleteDocument, hf]
          split
          · simp
          · split <;> simp

/-- C1 (counterexample): a stored snapshot that parses to the empty array
completes initialization with an empty collection and no active document, so
after initialization (and the empty call sequence) the collection is empty. -/
theorem init_parsed_empty_counterexample :
    (initStore (.parsed []) "b" 0 400).documents = [] ∧
    (runOps [] (initStore (.parsed []) "b" 0 400)).documents = [] ∧
    (initStore (.parsed []) "b" 0 400).activeDocumentId = none :=
  ⟨rfl, rfl, rfl⟩

/-- C1 (amended): except for a snapshot parsing to the empty array followed by
no call at all, the collection is never empty: initialization from an absent,
corrupt or non-empty parsed snapshot is non-empty, every sequence of
`createDocument`/`deleteDocument` calls ending in at least one call leaves a
non-empty collection, and deleting the only remaining document synchronously
replaces it with one freshly created document bearing the default name. -/
theorem docs_never_empty (load : LoadResult) (bootId : String) (now dms : Nat)
    (ops : List DocOp) (h : load ≠ LoadResult.parsed [] ∨ ops ≠ []) :
    (runOps ops (initStore load bootId now dms)).documents ≠ [] ∧
    ∀ (s : DocState) (d : Document) (nid : String) (n2 : Nat),
      s.documents = [d] →
      (deleteDocument d.id nid n2 s).documents = [createNewDocument nid n2 none] := by
  constructor
  · rcases List.eq_nil_or_concat ops with rfl | ⟨ops', op, rfl⟩
    · rcases h with h | h
      · cases load with
        | parsed docs =>
            cases docs with
            | nil => exact absurd rfl h
            | cons d ds => simp [runOps, initStore]
        | absent => simp [runOps, initStore]
        | corrupt => simp [runOps, initStore]
      · exact absurd rfl h
    · have : runOps (ops'.concat op) (initStore load bootId now dms) =
          applyOp op (runOps ops' (initStore load bootId now dms)) := by
        simp [runOps, List.concat_eq_append, List.foldl_append]
      rw [this]
      exact applyOp_documents_ne_nil op _
  · intro s d nid n2 hd
    have hf : s.documents.filter (fun x => x.id != d.id) = [] := by
      rw [hd]; simp
    simp [deleteDocument, hf]

/-- C1 (witness): from an absent snapshot, one delete of the bootstrap
document still leaves a non-empty collection. -/
theorem docs_never_empty_witness :
    (LoadResult.absent ≠ LoadResult.parsed [] ∨
      ([DocOp.delete "boot" "n1" 5] : List DocOp) ≠ []) ∧
    (runOps [DocOp.delete "boot" "n1" 5]
      (initStore .absent "boot" 0 400)).documents ≠ [] :=
  ⟨Or.inl (by decide),
    (docs_never_empty .absent "boot" 0 400 [DocOp.delete "boot" "n1" 5]
      (Or.inl (by decide))).1⟩

/-- Unfolding `mostRecent` one step. -/
theorem mostRecent_cons (d x : Document) (xs : List Document) :
    mostRecent d (x :: xs) =
      mostRecent (if x.updatedAt > d.updatedAt then x else d) xs := rfl

/-- The accumulator's timestamp never decreases along the reduce. -/
theorem le_mostRecent_updatedAt (ds : List Document) (d : Document) :
    d.updatedAt ≤ (mostRecent d ds).updatedAt := by
  induction ds generalizing d with
  | nil => exact le_refl _
  | cons x xs ih =>
      rw [mostRecent_cons]
      by_cases h : x.updatedAt > d.updatedAt
      · rw [if_pos h]; exact le_trans (le_of_lt h) (ih x)
      · rw [if_neg h]; exact ih d

/-- The reduce returns the first occurrence of the maximum `updatedAt`: the
list splits around the result, everything before it strictly older,
everything after it no newer. -/
theorem mostRecent_first_max (ds : List Document) (d : Document) :
    ∃ l1 l2, d :: ds = l1 ++ mostRecent d ds :: l2 ∧
      (∀ e ∈ l1, e.updatedAt < (mostRecent d ds).updatedAt) ∧
      (∀ e ∈ l2, e.updatedAt ≤ (mostRecent d ds).updatedAt) := by
  induction ds generalizing d with
  | nil => exact ⟨[], [], rfl, by simp, by simp⟩
  | cons x xs ih =>
      rw [mostRecent_cons]
      by_cases h : x.updatedAt > d.updatedAt
      · rw [if_pos h]
        obtain ⟨l1, l2, heq, h1, h2⟩ := ih x
        refine ⟨d :: l1, l2, ?_, ?_, h2⟩
        · rw [List.cons_append, ← heq]
        · intro e he
          rcases List.mem_cons.mp he with rfl | hmem
          · exact lt_of_lt_of_le h (le_mostRecent_updatedAt xs x)
          · exact h1 e hmem
      · rw [if_neg h]
        have hxle : x.updatedAt ≤ d.updatedAt := le_of_not_lt h
        obtain ⟨l1, l2, heq, h1, h2⟩ := ih d
        cases l1 with
        | nil =>
            rw [List.nil_append] at heq
            injection heq with hdm hxs
            refine ⟨[], x :: xs, ?_, by simp, ?_⟩
            · rw [List.nil_append, ← hdm]
            · intro e he
              rcases List.mem_cons.mp he with rfl | hmem
              · rw [← hdm]; exact hxle
              · exact h2 e (hxs ▸ hmem)
        | cons a l1' =>
            rw [List.cons_append] at heq
            injection heq with hda hxs
            subst hda
            refine ⟨d :: x :: l1', l2, ?_, ?_, h2⟩
            · rw [List.cons_append, List.cons_append, ← hxs]
            · intro e he
              have hdlt : d.updatedAt < (mostRecent d xs).updatedAt :=
                h1 d (List.mem_cons_self d l1')
              rcases List.mem_cons.mp he with rfl | he2
              · exact hdlt
              · rcases List.mem_cons.mp he2 with rfl | he3
                · exact lt_of_le_of_lt hxle hdlt
                · exact h1 e (List.mem_cons_of_mem d he3)

/-- C6: initialization from a non-empty parsed snapshot keeps the snapshot
order and selects as active the document with the maximum `updatedAt`, the
first occurrence in snapshot order on ties: the snapshot decomposes around the
selected document with every earlier document strictly older and every later
one no newer. The concrete scenario with `updatedAt` 1000 and 2000 resolves
the active id to the document with 2000. -/
theorem init_active_most_recent (d : Document) (ds : List Document)
    (bootId : String) (now dms : Nat) :
    ((initStore (.parsed (d :: ds)) bootId now dms).documents = d :: ds ∧
      ∃ l1 l2 m, d :: ds = l1 ++ m :: l2 ∧
        (initStore (.parsed (d :: ds)) bootId now dms).activeDocumentId = some m.id ∧
        (∀ e ∈ l1, e.updatedAt < m.updatedAt) ∧
        (∀ e ∈ l2, e.updatedAt ≤ m.updatedAt)) ∧
    (initStore (.parsed [docA, docB]) bootId now dms).activeDocumentId = some "b" := by
  refine ⟨⟨rfl, ?_⟩, rfl⟩
  obtain ⟨l1, l2, heq, h1, h2⟩ := mostRecent_first_max ds d
  exact ⟨l1, l2, mostRecent d ds, heq, rfl, h1, h2⟩

end MarkdownNotepad

namespace MarkdownNotepad

/-- C9 (counterexample): a session mounted with nothing stored, a light
environment and the default theme, in which the user never toggles or sets a
theme: no explicit preference exists at the moment of the event, yet an
environment change to dark leaves the theme `light` — the mount persist
effect has already stored the resolved theme, so the handler's
`if (!stored)` guard fails. The claimed "if and only if" would require the
theme to become `dark` here. -/
theorem theme_env_change_counterexample :
    (themeInit none false .light).userSet = false ∧
    (themeStep (.envChange true) (themeInit none false .light)).theme = Theme.light ∧
    Theme.light ≠ Theme.dark := by
  decide

/-- C9 (amended): the environment-change handler applies the environment
scheme only when nothing is stored under the theme key; since the hook
persists the current theme at mount and again after every change, every
reachable session state (with working storage) has a stored value, so an
environment change event never alters the session state — in particular never
after the user has toggled or explicitly set a theme, but also never before. -/
theorem theme_env_change_ignored (stored0 : Option Theme) (envDark : Bool)
    (dflt : Theme) (es : List ThemeEvent) (b : Bool) :
    (sessionRun es (themeInit stored0 envDark dflt)).stored ≠ none ∧
    themeStep (.envChange b) (sessionRun es (themeInit stored0 envDark dflt)) =
      sessionRun es (themeInit stored0 envDark dflt) := by
  have hinv : ∀ (s : ThemeState), s.stored ≠ none →
      (sessionRun es s).stored ≠ none := by
    induction es with
    | nil => exact fun s h => h
    | cons e rest ih =>
        intro s h
        refine ih (themeStep e s) ?_
        cases e with
        | toggle => simp [themeStep]
        | setLight => simp [themeStep]
        | setDark => simp [themeStep]
        | envChange isDark =>
            cases hs : s.stored with
            | none => exact absurd hs h
            | some t => simp [themeStep, hs]
  have hne := hinv (themeInit stored0 envDark dflt) (by simp [themeInit])
  refine ⟨hne, ?_⟩
  cases hs : (sessionRun es (themeInit stored0 envDark dflt)).stored with
  | none => exact absurd hs hne
  | some t => simp [themeStep, hs]

end MarkdownNotepad
